import Mathlib

/-!
# Verification of the Illuvision GPU buffer subsystem

Shallow embedding of the uniform/storage buffer layer and the geometry
vertex-buffer builder of the Illuvision repository
(`src/core/buffer/uniform-buffer.js`, `src/core/buffer/storage-buffer.js`,
`src/core/buffer/base-buffer.js`, `src/engine.js`, `src/core/geometry/triangle.js`).

JavaScript numbers are modelled by `ℚ` (every concrete constant appearing in
the code and the claims — 0.5, 1.5, 16, 256 — is exactly representable in
binary floating point, so rational arithmetic is faithful on them); the
non-finite numbers `NaN` and `Infinity` get their own constructors.  JS `Map`
objects are modelled as insertion-ordered association lists where setting an
existing key updates it in place (as JS `Map.set` does).  Thrown exceptions
are modelled by `Except`; GPU side effects (`device.createBuffer`,
`device.queue.writeBuffer`, `buffer.destroy()`) are recorded in an explicit
call trace returned next to the new state.
-/

namespace Illuvision

/-- A thrown JS exception: the source throws `TypeError`, `Error` and
`RangeError` objects with a message. -/
inductive JSError where
  | typeError (msg : String)
  | jsError (msg : String)
  | rangeError (msg : String)
deriving DecidableEq, Repr

/-- A JavaScript runtime value as far as the buffer layer inspects it:
finite numbers (`ℚ`), the non-finite numbers, strings, booleans,
`null`/`undefined`, and arrays. -/
inductive JSVal where
  | num (q : ℚ)
  | nan
  | infinite
  | str (s : String)
  | boolean (b : Bool)
  | null
  | undef
  | arr (elems : List JSVal)

/-- JS `Map` model: insertion-ordered association list.  `Map.set` on an
existing key replaces its value but keeps its original position; on a new
key it appends at the end. -/
def mapSet {κ α : Type} [DecidableEq κ] (m : List (κ × α)) (k : κ) (v : α) :
    List (κ × α) :=
  if m.any (fun p => p.1 = k) then
    m.map (fun p => if p.1 = k then (k, v) else p)
  else
    m ++ [(k, v)]

/-- JS `Map.get` model. -/
def mapGet {κ α : Type} [DecidableEq κ] (m : List (κ × α)) (k : κ) : Option α :=
  (m.find? (fun p => p.1 = k)).map (fun p => p.2)

/-- JS `String.prototype.trim`: strips leading and trailing whitespace.
(Defined from the character list so that it reduces definitionally; the
library `String.trim` computes the same string through non-reducing
iterator primitives.) -/
def jsTrim (s : String) : String :=
  ⟨((s.data.dropWhile Char.isWhitespace).reverse.dropWhile
      Char.isWhitespace).reverse⟩

/-- The structural shape of a WebGPU device as `Engine.validateDevice`
inspects it: which methods are present (as functions), whether `queue`
is set, and the `destroyed` flag. -/
structure Device where
  hasCreateShaderModule : Bool
  hasCreateBuffer : Bool
  hasCreateRenderPipeline : Bool
  hasCreateCommandEncoder : Bool
  hasQueue : Bool
  destroyed : Bool
deriving DecidableEq, Repr

/-- A device every structural check accepts. -/
def validDev : Device :=
  { hasCreateShaderModule := true, hasCreateBuffer := true,
    hasCreateRenderPipeline := true, hasCreateCommandEncoder := true,
    hasQueue := true, destroyed := false }

/-- `Engine.validateDevice` (src/engine.js lines 368-407): missing device,
then each required method in source order, then the queue property, then the
destroyed flag.  The device argument is `Option Device`, `none` standing for
a missing/null argument (the JS falsy check). -/
def validateDevice (device : Option Device) : Except JSError Unit :=
  match device with
  | none => .error (.typeError "WebGPU device is required but was not provided.")
  | some d =>
    if !d.hasCreateShaderModule then
      .error (.typeError "Invalid WebGPU device: missing createShaderModule method.")
    else if !d.hasCreateBuffer then
      .error (.typeError "Invalid WebGPU device: missing createBuffer method.")
    else if !d.hasCreateRenderPipeline then
      .error (.typeError "Invalid WebGPU device: missing createRenderPipeline method.")
    else if !d.hasCreateCommandEncoder then
      .error (.typeError "Invalid WebGPU device: missing createCommandEncoder method.")
    else if !d.hasQueue then
      .error (.typeError "Invalid WebGPU device: missing queue property.")
    else if d.destroyed then
      .error (.jsError "WebGPU device has been destroyed and cannot be used.")
    else .ok ()


/-! ## GPU side effects -/

/-- The GPU usage flags appearing in the buffer layer. -/
inductive BufferUsage where
  | uniformCopyDst
  | storageCopyDst
deriving DecidableEq, Repr

/-- One call into the external GPU capability, as recorded in a trace. -/
inductive GpuCall where
  | createBuffer (size : Nat) (usage : BufferUsage)
  | writeBuffer (offset : Nat) (byteLength : Nat)
  | destroyBuffer
deriving DecidableEq, Repr

/-- A live GPU buffer handle: all the buffer layer reads back from it is its
byte `size`. -/
structure GPUBuffer where
  size : Nat
deriving DecidableEq, Repr

/-- Number of `createBuffer` calls in a trace. -/
def countCreates (t : List GpuCall) : Nat :=
  t.countP (fun c => match c with | .createBuffer _ _ => true | _ => false)

/-- Number of `writeBuffer` calls in a trace. -/
def countWrites (t : List GpuCall) : Nat :=
  t.countP (fun c => match c with | .writeBuffer _ _ => true | _ => false)


/-! ## BaseBuffer statics (src/core/buffer/base-buffer.js) -/

/-- `BaseBuffer.validateBufferValueType`: the closed WGSL type vocabulary. -/
def validTypes : List String :=
  [ "f32", "i32", "u32", "bool",
    "vec2<f32>", "vec2<i32>", "vec2<u32>", "vec2<bool>",
    "vec3<f32>", "vec3<i32>", "vec3<u32>", "vec3<bool>",
    "vec4<f32>", "vec4<i32>", "vec4<u32>", "vec4<bool>",
    "mat2x2<f32>", "mat2x3<f32>", "mat2x4<f32>",
    "mat3x2<f32>", "mat3x3<f32>", "mat3x4<f32>",
    "mat4x2<f32>", "mat4x3<f32>", "mat4x4<f32>",
    "float", "int", "uint",
    "vec2", "vec3", "vec4",
    "mat2", "mat3", "mat4",
    "mat2x2", "mat3x3", "mat4x4" ]

/-- `BaseBuffer.validateBufferValueType` (base-buffer.js lines 72-100). -/
def validateBufferValueType (type : String) : Except JSError Unit :=
  if validTypes.contains type then .ok ()
  else .error (.typeError ("Invalid type '" ++ type ++ "'. Must be a valid WGSL type."))

/-- `BaseBuffer.getBufferTypeSize` (base-buffer.js lines 105-127): component
count of a WGSL type; an unknown type falls back to 1 (`typeSizes[type] || 1`). -/
def getBufferTypeSize (type : String) : Nat :=
  let typeSizes : List (String × Nat) :=
    [ ("f32", 1), ("i32", 1), ("u32", 1), ("bool", 1),
      ("float", 1), ("int", 1), ("uint", 1),
      ("vec2<f32>", 2), ("vec2<i32>", 2), ("vec2<u32>", 2), ("vec2<bool>", 2),
      ("vec3<f32>", 3), ("vec3<i32>", 3), ("vec3<u32>", 3), ("vec3<bool>", 3),
      ("vec4<f32>", 4), ("vec4<i32>", 4), ("vec4<u32>", 4), ("vec4<bool>", 4),
      ("vec2", 2), ("vec3", 3), ("vec4", 4),
      ("mat2x2<f32>", 4), ("mat2x3<f32>", 6), ("mat2x4<f32>", 8),
      ("mat3x2<f32>", 6), ("mat3x3<f32>", 9), ("mat3x4<f32>", 12),
      ("mat4x2<f32>", 8), ("mat4x3<f32>", 12), ("mat4x4<f32>", 16),
      ("mat2", 4), ("mat3", 9), ("mat4", 16),
      ("mat2x2", 4), ("mat3x3", 9), ("mat4x4", 16) ]
  match mapGet typeSizes type with
  | some n => n
  | none => 1

/-- One step of the element loop of `BaseBuffer.validateBufferValue`: a
`null`/`undefined` element is rejected, a non-finite number is rejected,
and the finiteness check is applied only to elements of number type —
any other element (string, boolean, nested array, ...) passes. -/
def validateArrayElement (fail1 fail2 : String) (element : JSVal) :
    Except JSError Unit :=
  match element with
  | .null | .undef => .error (.typeError fail1)
  | .nan | .infinite => .error (.typeError fail2)
  | _ => .ok ()

/-- The element loop of `validateBufferValue` over a whole array. -/
def validateArrayElements (fail1 fail2 : String) :
    List JSVal → Except JSError Unit
  | [] => .ok ()
  | x :: xs =>
    match validateArrayElement fail1 fail2 x with
    | .error e => .error e
    | .ok () => validateArrayElements fail1 fail2 xs

/-- `BaseBuffer.validateBufferValue` (base-buffer.js lines 32-67): accepts a
finite number or an array whose elements are none of `null`/`undefined` and
whose number-typed elements are finite; everything else throws. -/
def validateBufferValue (value : JSVal) : Except JSError Unit :=
  match value with
  | .null | .undef => .error (.typeError "Buffer value may not be empty!")
  | .num _ => .ok ()
  | .nan | .infinite => .error (.typeError "Buffer number value must be finite!")
  | .arr xs =>
      validateArrayElements
        "Buffer array value may not contain empty values!"
        "Buffer array value must be a finite number!" xs
  | _ => .error (.typeError "Buffer value must be a finite number or array!")


/-! ## UniformBuffer (src/core/buffer/uniform-buffer.js) -/

/-- `UniformBuffer.#validateUniformValue` (uniform-buffer.js lines 184-219):
identical logic to `validateBufferValue`, with the uniform messages. -/
def validateUniformValue (value : JSVal) : Except JSError Unit :=
  match value with
  | .null | .undef => .error (.typeError "Uniform value may not be empty!")
  | .num _ => .ok ()
  | .nan | .infinite => .error (.typeError "Uniform number value must be finite!")
  | .arr xs =>
      validateArrayElements
        "Uniform array value may not contain empty values!"
        "Uniform array value must be a finite number!" xs
  | _ => .error (.typeError "Uniform value must be a finite number or array!")

/-- The state of a `UniformBuffer` instance: the two insertion-ordered maps
(`#uniforms`, `#uniformLayout`), the GPU handle and the compiled flag. -/
structure UniformBuffer where
  uniforms : List (String × JSVal)
  uniformLayout : List (String × String)
  uniformBuffer : Option GPUBuffer
  compiled : Bool

/-- A freshly constructed `UniformBuffer`. -/
def UniformBuffer.init : UniformBuffer :=
  { uniforms := [], uniformLayout := [], uniformBuffer := none, compiled := false }

/-- `UniformBuffer.setUniform` (lines 19-30): validates the name, the value
(`#validateUniformValue`) and the type (`validateBufferValueType`), then
stores value and type.  No component-count check is performed here. -/
def UniformBuffer.setUniform (buf : UniformBuffer) (name : String)
    (value : JSVal) (type : String) : Except JSError UniformBuffer :=
  if (jsTrim name).length = 0 then
    .error (.typeError "Uniform name must be a non-empty string.")
  else
    match validateUniformValue value with
    | .error e => .error e
    | .ok () =>
      match validateBufferValueType type with
      | .error e => .error e
      | .ok () =>
        .ok { buf with
              uniforms := mapSet buf.uniforms name value,
              uniformLayout := mapSet buf.uniformLayout name type }

/-- `UniformBuffer.getUniform` (lines 35-37). -/
def UniformBuffer.getUniform (buf : UniformBuffer) (name : String) : Option JSVal :=
  mapGet buf.uniforms name

/-- `UniformBuffer.flattenUniforms` (lines 112-125): walks the uniforms map
in insertion order, spreading array values and pushing scalars, yielding the
lanes of the `Float32Array`.  No alignment or padding is inserted. -/
def UniformBuffer.flattenUniforms (buf : UniformBuffer) : List JSVal :=
  buf.uniforms.foldl
    (fun acc p =>
      match p.2 with
      | .arr xs => acc ++ xs
      | v => acc ++ [v]) []

/-- Byte length of the `Float32Array` produced by `flattenUniforms`: four
bytes per lane, whatever the lane holds. -/
def UniformBuffer.flatByteLength (buf : UniformBuffer) : Nat :=
  4 * buf.flattenUniforms.length

/-- `UniformBuffer.#createUniformBuffer` (lines 165-178): allocates
`max(flatUniforms.byteLength, 16)` bytes and writes the initial bytes only
when the payload is non-empty. -/
def UniformBuffer.createUniformBuffer (buf : UniformBuffer) :
    UniformBuffer × List GpuCall :=
  let byteLen := buf.flatByteLength
  let bufferSize := max byteLen 16
  ({ buf with uniformBuffer := some { size := bufferSize } },
    [.createBuffer bufferSize .uniformCopyDst] ++
      (if byteLen > 0 then [.writeBuffer 0 byteLen] else []))

/-- `UniformBuffer.compile` (lines 130-140): early-returns when already
compiled, otherwise validates the device, creates the buffer and marks the
state compiled. -/
def UniformBuffer.compile (buf : UniformBuffer) (device : Option Device) :
    Except JSError (UniformBuffer × List GpuCall) :=
  if buf.compiled then .ok (buf, [])
  else
    match validateDevice device with
    | .error e => .error e
    | .ok () =>
      let (buf', calls) := buf.createUniformBuffer
      .ok ({ buf' with compiled := true }, calls)

/-- `UniformBuffer.getUniformBuffer` (lines 74-83). -/
def UniformBuffer.getUniformBuffer (buf : UniformBuffer) :
    Except JSError GPUBuffer :=
  if !buf.compiled then
    .error (.jsError "Uniform uffer must be compiled before accessing it!")
  else
    match buf.uniformBuffer with
    | some h => .ok h
    | none => .error (.typeError "Cannot read properties of null.")

/-- `UniformBuffer.updateUniformBuffer` (lines 88-106): requires the compiled
state, validates the device, then either recreates the buffer (destroying the
old handle) when the payload outgrew it, or writes in place at offset 0. -/
def UniformBuffer.updateUniformBuffer (buf : UniformBuffer)
    (device : Option Device) : Except JSError (UniformBuffer × List GpuCall) :=
  if !buf.compiled then
    .error (.jsError "Uniform buffer must be compiled before updating!")
  else
    match validateDevice device with
    | .error e => .error e
    | .ok () =>
      let byteLen := buf.flatByteLength
      match buf.uniformBuffer with
      | none => .error (.typeError "Cannot read properties of null.")
      | some h =>
        if byteLen > h.size then
          let (buf', calls) := buf.createUniformBuffer
          .ok (buf', [.destroyBuffer] ++ calls)
        else
          .ok (buf, [.writeBuffer 0 byteLen])

/-- `UniformBuffer.isCompiled` (lines 145-147). -/
def UniformBuffer.isCompiled (buf : UniformBuffer) : Bool :=
  buf.compiled

/-- `UniformBuffer.destroy` (lines 152-160): destroys the handle when one
exists, clears it, and resets the compiled flag.  The uniforms maps are left
untouched. -/
def UniformBuffer.destroy (buf : UniformBuffer) :
    UniformBuffer × List GpuCall :=
  match buf.uniformBuffer with
  | some _ =>
      ({ buf with uniformBuffer := none, compiled := false }, [.destroyBuffer])
  | none => ({ buf with compiled := false }, [])


/-! ## StorageBuffer (src/core/buffer/storage-buffer.js, simple variant) -/

/-- JS `Math.ceil` on a (finite) number, landing in `ℤ`. -/
def jsCeil (q : ℚ) : ℤ := ⌈q⌉

/-- Modelled from the spec: `StorageBuffer.flattenValues` is called by
`#flattenStorage` (storage-buffer.js line 268) but its definition — a
`BaseBuffer` static of a later revision — is not among the repository files.
The spec describes the storage packing as "values concatenated in insertion
order, flattened, no struct padding", so the model walks the entry object's
fields in insertion order, spreading array values and pushing scalars. -/
def flattenValues (entries : List (String × JSVal)) : List JSVal :=
  entries.foldl
    (fun acc p =>
      match p.2 with
      | .arr xs => acc ++ xs
      | v => acc ++ [v]) []

/-- The state of a `StorageBuffer` instance (the simple, unaligned variant):
the entries map (`#storage`, each entry an insertion-ordered JS object), the
layout map, the derived element size, the growth parameters and the GPU
handle. -/
structure StorageBuffer where
  storage : List (String × List (String × JSVal))
  storageLayout : List (String × String)
  elementSize : Nat
  growthFactor : ℚ
  minBufferSize : Nat
  storageBuffer : Option GPUBuffer
  compiled : Bool

/-- The layout loop of `StorageBuffer.setStorageLayout` (lines 86-90):
validates each type in order and accumulates the layout map and the summed
element size. -/
def layoutFold : List (String × String) → List (String × String) → Nat →
    Except JSError (List (String × String) × Nat)
  | [], acc, es => .ok (acc, es)
  | (name, type) :: rest, acc, es =>
    match validateBufferValueType type with
    | .error e => .error e
    | .ok () => layoutFold rest (mapSet acc name type) (es + getBufferTypeSize type)

/-- `StorageBuffer.setStorageLayout` (lines 77-95): rebuilds the layout map
and element size, clears the storage and resets the compiled flag.  (The
`typeof layout !== 'object'` guard is inexpressible here: the model's layout
argument is an object by construction.) -/
def StorageBuffer.setStorageLayout (buf : StorageBuffer)
    (layout : List (String × String)) : Except JSError StorageBuffer :=
  match layoutFold layout [] 0 with
  | .error e => .error e
  | .ok (sl, es) =>
    .ok { buf with storageLayout := sl, elementSize := es,
                   storage := [], compiled := false }

/-- `new StorageBuffer(layout, length)` (lines 20-26): applies
`setStorageLayout`, then sets `minBufferSize = elementSize * length * 4 +
length * 4`.  The field initializers give `growthFactor = 1.5`. -/
def StorageBuffer.construct (layout : List (String × String))
    (length : Nat := 5) : Except JSError StorageBuffer :=
  let base : StorageBuffer :=
    { storage := [], storageLayout := [], elementSize := 0,
      growthFactor := 3 / 2, minBufferSize := 256,
      storageBuffer := none, compiled := false }
  match base.setStorageLayout layout with
  | .error e => .error e
  | .ok buf =>
    .ok { buf with minBufferSize := buf.elementSize * length * 4 + length * 4 }

/-- `StorageBuffer.getStorageEntry` (lines 42-44). -/
def StorageBuffer.getStorageEntry (buf : StorageBuffer) (name : String) :
    Option (List (String × JSVal)) :=
  mapGet buf.storage name

/-- `StorageBuffer.#flattenStorage` (lines 263-275): concatenates
`flattenValues` of each entry in insertion order into the `Float32Array`
lanes. -/
def StorageBuffer.flattenStorage (buf : StorageBuffer) : List JSVal :=
  buf.storage.foldl (fun acc p => acc ++ flattenValues p.2) []

/-- Byte length of the `Float32Array` produced by `#flattenStorage`. -/
def StorageBuffer.flatByteLength (buf : StorageBuffer) : Nat :=
  4 * buf.flattenStorage.length

/-- `StorageBuffer.#createStorageBuffer` (lines 245-258): allocates `size`
bytes and writes the current payload when non-empty. -/
def StorageBuffer.createStorageBuffer (buf : StorageBuffer) (size : Nat) :
    StorageBuffer × List GpuCall :=
  let byteLen := buf.flatByteLength
  ({ buf with storageBuffer := some { size := size } },
    [.createBuffer size .storageCopyDst] ++
      (if byteLen > 0 then [.writeBuffer 0 byteLen] else []))

/-- `StorageBuffer.compile` (lines 142-156): early-returns when already
compiled, otherwise validates the device and allocates
`max(entryCount * elementSize * 4, minBufferSize)` bytes. -/
def StorageBuffer.compile (buf : StorageBuffer) (device : Option Device) :
    Except JSError (StorageBuffer × List GpuCall) :=
  if buf.compiled then .ok (buf, [])
  else
    match validateDevice device with
    | .error e => .error e
    | .ok () =>
      let initialSize := max (buf.storage.length * buf.elementSize * 4) buf.minBufferSize
      let (buf', calls) := buf.createStorageBuffer initialSize
      .ok ({ buf' with compiled := true }, calls)

/-- `StorageBuffer.update` (lines 161-186): requires the compiled state,
validates the device, computes `requiredSize = max(payload bytes,
minBufferSize)`; when it exceeds the handle's size, destroys the handle and
recreates one of `ceil(requiredSize * growthFactor)` bytes (which also
rewrites the payload), then writes the payload at offset 0 when non-empty. -/
def StorageBuffer.update (buf : StorageBuffer) (device : Option Device) :
    Except JSError (StorageBuffer × List GpuCall) :=
  if !buf.compiled then
    .error (.jsError "Storage buffer must be compiled before updating!")
  else
    match validateDevice device with
    | .error e => .error e
    | .ok () =>
      let byteLen := buf.flatByteLength
      let requiredSize := max byteLen buf.minBufferSize
      match buf.storageBuffer with
      | none => .error (.typeError "Cannot read properties of null.")
      | some h =>
        let (buf', resizeCalls) :=
          if requiredSize > h.size then
            let (b, c) :=
              buf.createStorageBuffer (jsCeil ((requiredSize : ℚ) * buf.growthFactor)).toNat
            (b, [GpuCall.destroyBuffer] ++ c)
          else (buf, [])
        .ok (buf', resizeCalls ++ (if byteLen > 0 then [GpuCall.writeBuffer 0 byteLen] else []))

/-- `StorageBuffer.getStorageBuffer` (lines 128-137). -/
def StorageBuffer.getStorageBuffer (buf : StorageBuffer) :
    Except JSError GPUBuffer :=
  if !buf.compiled then
    .error (.jsError "Storage buffer must be compiled before accessing it!")
  else
    match buf.storageBuffer with
    | some h => .ok h
    | none => .error (.typeError "Cannot read properties of null.")

/-- `StorageBuffer.setGrowthFactor` (lines 114-123). -/
def StorageBuffer.setGrowthFactor (buf : StorageBuffer) (factor : ℚ) :
    Except JSError StorageBuffer :=
  if factor ≤ 1 then
    .error (.typeError "Growth factor must be a number greater than 1.")
  else .ok { buf with growthFactor := factor }

/-- `StorageBuffer.isCompiled` (lines 191-193). -/
def StorageBuffer.isCompiled (buf : StorageBuffer) : Bool :=
  buf.compiled

/-- `StorageBuffer.destroy` (lines 198-206): destroys the handle when one
exists, clears it, and resets the compiled flag.  The storage maps are left
untouched. -/
def StorageBuffer.destroy (buf : StorageBuffer) :
    StorageBuffer × List GpuCall :=
  match buf.storageBuffer with
  | some _ =>
      ({ buf with storageBuffer := none, compiled := false }, [.destroyBuffer])
  | none => ({ buf with compiled := false }, [])


/-! ## Geometry vertex-buffer builder (src/core/geometry/triangle.js) -/

/-- Rational stand-in for `Math.sqrt`.  The embedding uses `ℚ` for JS
numbers, so the square root (which only feeds vector normalisation, a value
no claim inspects) is the integer-square-root approximation. -/
def sqrtQ (q : ℚ) : ℚ :=
  (Nat.sqrt (q.num.toNat * q.den) : ℚ) / (q.den : ℚ)

/-- `Vector3` data (src/core/vector3.js). -/
structure Vec3 where
  x : ℚ
  y : ℚ
  z : ℚ
deriving DecidableEq, Repr

/-- `Vector3.add` (static, vector3.js lines 103-114). -/
def Vec3.addV (a b : Vec3) : Vec3 :=
  { x := a.x + b.x, y := a.y + b.y, z := a.z + b.z }

/-- `Vector3.subtract` (static, lines 118-129). -/
def Vec3.subV (a b : Vec3) : Vec3 :=
  { x := a.x - b.x, y := a.y - b.y, z := a.z - b.z }

/-- `Vector3.cross` (static, lines 133-144). -/
def Vec3.crossV (a b : Vec3) : Vec3 :=
  { x := a.y * b.z - a.z * b.y,
    y := a.z * b.x - a.x * b.z,
    z := a.x * b.y - a.y * b.x }

/-- `Vector3.length` (lines 60-62), with `sqrtQ` for `Math.sqrt`. -/
def Vec3.lengthV (v : Vec3) : ℚ :=
  sqrtQ (v.x * v.x + v.y * v.y + v.z * v.z)

/-- `Vector3.normalize` (instance method, lines 67-75): leaves the zero
vector unchanged, otherwise divides by the length. -/
def Vec3.normalizeV (v : Vec3) : Vec3 :=
  let l := v.lengthV
  if l ≠ 0 then { x := v.x / l, y := v.y / l, z := v.z / l } else v

/-- `Vector3.normalize` (static, lines 148-163): returns the zero vector for
a zero-length input. -/
def Vec3.normalizedCopy (v : Vec3) : Vec3 :=
  let l := v.lengthV
  if l = 0 then { x := 0, y := 0, z := 0 }
  else { x := v.x / l, y := v.y / l, z := v.z / l }

/-- `Uv` coordinate data. -/
structure UvCoord where
  u : ℚ
  v : ℚ
deriving DecidableEq, Repr

/-- `Color` data as the geometry writer reads it. -/
structure ColorVal where
  red : ℚ
  green : ℚ
  blue : ℚ
  alpha : ℚ
deriving DecidableEq, Repr

/-- `Face`: a list of vertex indices. -/
structure Face where
  indices : List Nat
deriving DecidableEq, Repr

/-- The geometry layout components (the `Geometry.VERTEX` / `NORMAL` / `UV`
/ `COLOR` constants, triangle.js lines 673-687). -/
inductive Component where
  | vertex
  | normal
  | uv
  | color
deriving DecidableEq, Repr

/-- `Geometry.getComponentSize` (lines 331-344). -/
def getComponentSize : Component → Nat
  | .vertex => 3
  | .normal => 3
  | .uv => 2
  | .color => 4

/-- The `Geometry` state (triangle.js lines 52-59). -/
structure Geometry where
  vertices : List Vec3
  faces : List Face
  uvs : List UvCoord
  vertexNormals : List Vec3
  faceNormals : List Vec3
  vertexColors : List ColorVal
deriving DecidableEq, Repr

/-- `Geometry.validateBufferLayout` (lines 349-362): a non-empty layout with
no duplicate components (the JS `Set`-size check). -/
def validateBufferLayout (layout : List Component) : Except JSError Unit :=
  if layout.length = 0 then
    .error (.typeError "Layout must be a non-empty array of layout components.")
  else if layout.dedup.length ≠ layout.length then
    .error (.jsError "Layout contains duplicate components")
  else .ok ()

/-- `Geometry.#buildComponentInfo` (lines 475-490): maps each layout
component to its size and running float offset. -/
def buildComponentInfo (layout : List Component) :
    List (Component × Nat × Nat) :=
  (layout.foldl
    (fun acc c =>
      (mapSet acc.1 c (getComponentSize c, acc.2),
        acc.2 + getComponentSize c))
    (([] : List (Component × Nat × Nat)), 0)).1

/-- `Geometry.#calculateStride` (lines 495-504): sum of the component
sizes. -/
def calculateStride (info : List (Component × Nat × Nat)) : Nat :=
  info.foldl (fun s p => s + p.2.1) 0

/-- `Geometry.#calculateByteOffsets` (lines 509-520): byte offset of each
component, four bytes per float. -/
def calculateByteOffsets (info : List (Component × Nat × Nat)) :
    List (Component × Nat) :=
  (info.foldl
    (fun acc p => (mapSet acc.1 p.1 acc.2, acc.2 + p.2.1 * 4))
    (([] : List (Component × Nat)), 0)).1

/-- `Geometry.#calculateFaceNormal` (lines 367-379). -/
def calculateFaceNormal (g : Geometry) (f : Face) : Vec3 :=
  let v1 := (g.vertices.get? (f.indices.getD 0 0)).getD { x := 0, y := 0, z := 0 }
  let v2 := (g.vertices.get? (f.indices.getD 1 0)).getD { x := 0, y := 0, z := 0 }
  let v3 := (g.vertices.get? (f.indices.getD 2 0)).getD { x := 0, y := 0, z := 0 }
  Vec3.normalizedCopy (Vec3.crossV (v2.subV v1) (v3.subV v1))

/-- `Geometry.calculateFaceNormals` (lines 250-258). -/
def Geometry.calculateFaceNormals (g : Geometry) : Geometry :=
  { g with faceNormals := g.faces.map (fun f => calculateFaceNormal g f) }

/-- One face's contribution in `calculateVertexNormals` (lines 226-238):
adds the face normal to each vertex the face references. -/
def accumulateFaceNormal (acc : List Vec3) (f : Face) (n : Vec3) : List Vec3 :=
  f.indices.foldl
    (fun vs i =>
      match vs.get? i with
      | some v => vs.set i (v.addV n)
      | none => vs)
    acc

/-- `Geometry.calculateVertexNormals` (lines 211-244): ensures face normals,
accumulates each face's normal onto its vertices and normalises. -/
def Geometry.calculateVertexNormals (g : Geometry) : Geometry :=
  let g := if g.faceNormals.length = 0 then g.calculateFaceNormals else g
  let zeros := g.vertices.map (fun _ => ({ x := 0, y := 0, z := 0 } : Vec3))
  let acc := (g.faces.zip g.faceNormals).foldl
    (fun vs p => accumulateFaceNormal vs p.1 p.2) zeros
  { g with vertexNormals := acc.map Vec3.normalizeV }

/-- `Geometry.#ensureNormalsExist` (lines 544-549). -/
def Geometry.ensureNormalsExist (g : Geometry) : Geometry :=
  if g.vertexNormals.length = 0 then g.calculateVertexNormals else g

/-- `Geometry.#prepareGeometryData` (lines 525-539): per layout component,
lazily computes normals and checks the UV / color counts. -/
def Geometry.prepareGeometryData (g : Geometry) :
    List Component → Except JSError Geometry
  | [] => .ok g
  | c :: rest =>
    match c with
    | .normal => g.ensureNormalsExist.prepareGeometryData rest
    | .uv =>
        if g.uvs.length ≠ g.vertices.length then
          .error (.jsError "UV coordinate count must match vertex count.")
        else g.prepareGeometryData rest
    | .color =>
        if g.vertexColors.length ≠ g.vertices.length then
          .error (.jsError "Vertex color count must match vertex count.")
        else g.prepareGeometryData rest
    | .vertex => g.prepareGeometryData rest

/-- Write a run of consecutive floats into the buffer starting at `offset`
(each `buffer[offset + k] = v` assignment of the `#write*Data` helpers). -/
def writeFloats (buffer : List ℚ) (offset : Nat) : List ℚ → List ℚ
  | [] => buffer
  | v :: vs => writeFloats (buffer.set offset v) (offset + 1) vs

/-- The floats one component contributes for one vertex
(`#writeVertexData` / `#writeNormalData` / `#writeUvData` /
`#writeColorData`, lines 616-659).  An out-of-range vertex access — ruled
out on every path `createBuffer` reaches after `#prepareGeometryData` —
contributes the zero record. -/
def componentFloats (g : Geometry) (c : Component) (index : Nat) : List ℚ :=
  match c with
  | .vertex =>
      let v := (g.vertices.get? index).getD { x := 0, y := 0, z := 0 }
      [v.x, v.y, v.z]
  | .normal =>
      let n := (g.vertexNormals.get? index).getD { x := 0, y := 0, z := 0 }
      [n.x, n.y, n.z]
  | .uv =>
      let t := (g.uvs.get? index).getD { u := 0, v := 0 }
      [t.u, t.v]
  | .color =>
      let col := (g.vertexColors.get? index).getD
        { red := 0, green := 0, blue := 0, alpha := 0 }
      [col.red, col.green, col.blue, col.alpha]

/-- `Geometry.#writeGeometryBuffer` (lines 589-611): writes each component
of one vertex at `index * stride + componentOffset`. -/
def writeGeometryBuffer (g : Geometry) (buffer : List ℚ) (index stride : Nat)
    (info : List (Component × Nat × Nat)) : List ℚ :=
  info.foldl
    (fun buf p => writeFloats buf (index * stride + p.2.2) (componentFloats g p.1 index))
    buffer

/-- `Geometry.#writeGeometryData` (lines 574-584): a zeroed
`Float32Array(vertexCount * stride)` filled vertex by vertex. -/
def Geometry.writeGeometryData (g : Geometry)
    (info : List (Component × Nat × Nat)) (stride : Nat) : List ℚ :=
  let bufferSize := g.vertices.length * stride
  let zeroBuffer := List.replicate bufferSize (0 : ℚ)
  (List.range g.vertices.length).foldl
    (fun buf index => writeGeometryBuffer g buf index stride info)
    zeroBuffer

/-- The data `Geometry.createBuffer` hands to the `GeometryBuffer`
constructor (geometry-buffer.js lines 14-23; the GPU side of that class is
outside the layout subsystem). -/
structure GeometryBuffer where
  buffer : List ℚ
  layout : List Component
  stride : Nat
  offsets : List (Component × Nat)
  vertexCount : Nat
deriving DecidableEq, Repr

/-- `Geometry.createBuffer` (lines 289-307): validates the layout, derives
component info / stride / byte offsets, prepares the data and writes the
interleaved buffer.  The `GeometryBuffer` constructor re-validates the
layout. -/
def Geometry.createBuffer (g : Geometry) (layout : List Component) :
    Except JSError GeometryBuffer :=
  match validateBufferLayout layout with
  | .error e => .error e
  | .ok () =>
    let info := buildComponentInfo layout
    let stride := calculateStride info
    let offsets := calculateByteOffsets info
    match g.prepareGeometryData layout with
    | .error e => .error e
    | .ok g' =>
      let buffer := g'.writeGeometryData info stride
      match validateBufferLayout layout with
      | .error e => .error e
      | .ok () =>
        .ok { buffer := buffer, layout := layout, stride := stride,
              offsets := offsets, vertexCount := g'.vertices.length }


/-! ## Derived notions of `StorageBuffer.update`, and update sequences -/

/-- The GPU capacity a storage buffer currently holds (0 with no handle). -/
def StorageBuffer.capacity (buf : StorageBuffer) : Nat :=
  match buf.storageBuffer with
  | some h => h.size
  | none => 0

/-- The `requiredSize` local of `StorageBuffer.update` (line 172). -/
def StorageBuffer.requiredSize (buf : StorageBuffer) : Nat :=
  max buf.flatByteLength buf.minBufferSize

/-- The size `update` grows to (line 178): `ceil(requiredSize * growthFactor)`. -/
def StorageBuffer.grownSize (buf : StorageBuffer) : Nat :=
  (jsCeil ((buf.requiredSize : ℚ) * buf.growthFactor)).toNat

/-- A sequence of `update` calls on one storage buffer: before each call the
storage contents are replaced arbitrarily (covering any `setStorageEntry` /
`removeStorageEntry` / `clearStorage` mutations between updates), then
`update` runs with the given device.  Returns the final state and the GPU
capacity observed after each call. -/
def runUpdates (dev : Option Device) :
    StorageBuffer → List (List (String × List (String × JSVal))) →
    Except JSError (StorageBuffer × List Nat)
  | buf, [] => .ok (buf, [])
  | buf, s :: rest =>
    match StorageBuffer.update { buf with storage := s } dev with
    | .error e => .error e
    | .ok (buf', _t) =>
      match runUpdates dev buf' rest with
      | .error e => .error e
      | .ok (bufF, caps) => .ok (bufF, buf'.capacity :: caps)


/-! ## Concrete scenario states used by the claim theorems -/

/-- The uniform buffer after `set('color', [1,0,0,1], 'vec4<f32>')` and
`set('intensity', 0.5, 'f32')` (the C1 scenario). -/
def c1Buf : UniformBuffer :=
  { uniforms := [("color", .arr [.num 1, .num 0, .num 0, .num 1]),
                 ("intensity", .num (1 / 2))],
    uniformLayout := [("color", "vec4<f32>"), ("intensity", "f32")],
    uniformBuffer := none, compiled := false }

/-- The uniform buffer after `set('v', [1,2,3], 'vec3<f32>')`. -/
def c2Buf1 : UniformBuffer :=
  { uniforms := [("v", .arr [.num 1, .num 2, .num 3])],
    uniformLayout := [("v", "vec3<f32>")],
    uniformBuffer := none, compiled := false }

/-- The uniform buffer after the further, size-mismatched
`set('v', [1,2], 'vec3<f32>')`. -/
def c2Buf2 : UniformBuffer :=
  { uniforms := [("v", .arr [.num 1, .num 2])],
    uniformLayout := [("v", "vec3<f32>")],
    uniformBuffer := none, compiled := false }

/-- A compiled storage buffer whose payload (12 bytes) exceeds its GPU
capacity (8 bytes), for the C3 witness. -/
def c3Buf : StorageBuffer :=
  { storage := [("e0", [("a", .arr [.num 1, .num 2, .num 3])])],
    storageLayout := [("a", "vec3<f32>")], elementSize := 3,
    growthFactor := 3 / 2, minBufferSize := 8,
    storageBuffer := some { size := 8 }, compiled := true }

/-- The compiled empty uniform buffer: the state `compile` on a fresh buffer
reaches. -/
def c5BufU : UniformBuffer :=
  { uniforms := [], uniformLayout := [],
    uniformBuffer := some { size := 16 }, compiled := true }

/-- The fresh storage buffer `new StorageBuffer({}, 5)` constructs. -/
def c5BufS0 : StorageBuffer :=
  { storage := [], storageLayout := [], elementSize := 0,
    growthFactor := 3 / 2, minBufferSize := 20,
    storageBuffer := none, compiled := false }

/-- The state `compile` on `c5BufS0` reaches. -/
def c5BufS : StorageBuffer :=
  { storage := [], storageLayout := [], elementSize := 0,
    growthFactor := 3 / 2, minBufferSize := 20,
    storageBuffer := some { size := 20 }, compiled := true }

/-- A compiled uniform buffer holding one entry, for the C8 witness. -/
def c8BufU : UniformBuffer :=
  { uniforms := [("a", .num 1)], uniformLayout := [("a", "f32")],
    uniformBuffer := some { size := 16 }, compiled := true }

/-- A compiled storage buffer holding one entry, for the C8 witness. -/
def c8BufS : StorageBuffer :=
  { storage := [("e0", [("a", .num 1)])], storageLayout := [("a", "f32")],
    elementSize := 1, growthFactor := 3 / 2, minBufferSize := 40,
    storageBuffer := some { size := 40 }, compiled := true }


/-! ## Helper lemmas -/

/-- `compile` on a fresh (uncompiled) uniform buffer, spelt out. -/
theorem UniformBuffer.uniform_compile_uncompiled_eq (buf : UniformBuffer)
    (dev : Option Device) (hc : buf.compiled = false)
    (hdev : validateDevice dev = .ok ()) :
    buf.compile dev =
      .ok ({ buf with
             uniformBuffer := some { size := max buf.flatByteLength 16 },
             compiled := true },
        [.createBuffer (max buf.flatByteLength 16) .uniformCopyDst] ++
          (if buf.flatByteLength > 0 then [.writeBuffer 0 buf.flatByteLength] else [])) := by
  simp [UniformBuffer.compile, hc, hdev, UniformBuffer.createUniformBuffer]

/-- `setUniform` on any validated input, spelt out: both maps are updated,
with no component-count comparison anywhere. -/
theorem UniformBuffer.setUniform_eq_ok (buf : UniformBuffer) (name : String)
    (value : JSVal) (type : String)
    (hn : (jsTrim name).length ≠ 0)
    (hv : validateUniformValue value = .ok ())
    (ht : validateBufferValueType type = .ok ()) :
    buf.setUniform name value type =
      .ok { buf with
            uniforms := mapSet buf.uniforms name value,
            uniformLayout := mapSet buf.uniformLayout name type } := by
  simp [UniformBuffer.setUniform, hn, hv, ht]

/-- `compile` on a fresh (uncompiled) storage buffer, spelt out. -/
theorem StorageBuffer.storage_compile_uncompiled_eq (buf : StorageBuffer)
    (dev : Option Device) (hc : buf.compiled = false)
    (hdev : validateDevice dev = .ok ()) :
    buf.compile dev =
      .ok ({ buf with
             storageBuffer :=
               some { size := max (buf.storage.length * buf.elementSize * 4) buf.minBufferSize },
             compiled := true },
        [.createBuffer (max (buf.storage.length * buf.elementSize * 4) buf.minBufferSize)
            .storageCopyDst] ++
          (if buf.flatByteLength > 0 then [.writeBuffer 0 buf.flatByteLength] else [])) := by
  simp [StorageBuffer.compile, hc, hdev, StorageBuffer.createStorageBuffer]


/-! ## Claim C1 -/

/-- C1 counterexample: after `set('color', [1,0,0,1], 'vec4<f32>')` and
`set('intensity', 0.5, 'f32')`, compiling allocates a GPU buffer of 20
bytes — `max(5 * 4, 16)` for the five concatenated lanes — not the 32 bytes
the claim derives from the shading-language alignment rules. -/
theorem c1_packed_size_counterexample :
    (match UniformBuffer.init.setUniform "color"
        (.arr [.num 1, .num 0, .num 0, .num 1]) "vec4<f32>" with
     | .ok b => b.setUniform "intensity" (.num (1 / 2)) "f32"
     | .error e => .error e) = .ok c1Buf ∧
    c1Buf.compile (some validDev) =
      .ok ({ c1Buf with
             uniformBuffer := some { size := 20 },
             compiled := true },
        [.createBuffer 20 .uniformCopyDst, .writeBuffer 0 20]) ∧
    (20 : Nat) ≠ 32 :=
  ⟨rfl, rfl, by decide⟩

/-- C1 amended: `compile` packs the two values by concatenating them in
insertion order with no alignment padding: the flattened lanes are
`[1, 0, 0, 1, 0.5]`, so `color` starts at byte offset 0 and `intensity` at
byte offset 16, but the compiled size is `max(20, 16) = 20` bytes — the
total is neither padded between fields nor rounded up to a multiple of the
maximum alignment. -/
theorem c1_packed_size_amended :
    c1Buf.flattenUniforms = [.num 1, .num 0, .num 0, .num 1, .num (1 / 2)] ∧
    c1Buf.flatByteLength = 20 ∧
    c1Buf.compile (some validDev) =
      .ok ({ c1Buf with
             uniformBuffer := some { size := 20 },
             compiled := true },
        [.createBuffer 20 .uniformCopyDst, .writeBuffer 0 20]) :=
  ⟨rfl, rfl, rfl⟩


/-! ## Claim C2 -/

/-- C2 counterexample: after `set('v', [1,2,3], 'vec3<f32>')`, the second
call `set('v', [1,2], 'vec3<f32>')` — whose component count disagrees with
the declared type — does not fail: it succeeds and overwrites the store, so
`get('v')` afterwards returns `[1,2]`, not the previous value. -/
theorem c2_size_mismatch_counterexample :
    UniformBuffer.init.setUniform "v" (.arr [.num 1, .num 2, .num 3])
      "vec3<f32>" = .ok c2Buf1 ∧
    c2Buf1.setUniform "v" (.arr [.num 1, .num 2]) "vec3<f32>" = .ok c2Buf2 ∧
    c2Buf2.getUniform "v" = some (.arr [.num 1, .num 2]) :=
  ⟨rfl, rfl, rfl⟩

/-- C2 amended: `setUniform` performs no component-count validation at all:
every call with a non-empty name, a value passing the null/finiteness check
and a registered type succeeds and overwrites the store — in particular a
set call whose value size disagrees with its declared type mutates the
store instead of failing. -/
theorem c2_size_mismatch_amended (buf : UniformBuffer) (name : String)
    (value : JSVal) (type : String)
    (hn : (jsTrim name).length ≠ 0)
    (hv : validateUniformValue value = .ok ())
    (ht : validateBufferValueType type = .ok ()) :
    buf.setUniform name value type =
      .ok { buf with
            uniforms := mapSet buf.uniforms name value,
            uniformLayout := mapSet buf.uniformLayout name type } :=
  UniformBuffer.setUniform_eq_ok buf name value type hn hv ht

/-- Witness for C2 amended: the size-mismatched second set call of the C2
scenario succeeds and overwrites the store. -/
theorem c2_size_mismatch_amended_witness :
    c2Buf1.setUniform "v" (.arr [.num 1, .num 2]) "vec3<f32>" = .ok c2Buf2 := by
  rw [c2_size_mismatch_amended c2Buf1 "v" (.arr [.num 1, .num 2]) "vec3<f32>"
    (by decide) rfl rfl]
  rfl


/-! ## Claim C4 -/

/-- C4: compiling a uniform buffer whose named-value store is empty
allocates a GPU buffer of exactly `max(0, 16) = 16` bytes and performs no
initial write. -/
theorem c4_empty_compile_floor (buf : UniformBuffer) (dev : Option Device)
    (hu : buf.uniforms = []) (hc : buf.compiled = false)
    (hdev : validateDevice dev = .ok ()) :
    buf.compile dev =
      .ok ({ buf with
             uniformBuffer := some { size := 16 },
             compiled := true },
        [.createBuffer 16 .uniformCopyDst]) := by
  have hflat : buf.flatByteLength = 0 := by
    simp [UniformBuffer.flatByteLength, UniformBuffer.flattenUniforms, hu]
  rw [UniformBuffer.uniform_compile_uncompiled_eq buf dev hc hdev]
  simp [hflat]

/-- Witness for C4 at the freshly constructed buffer and a valid device. -/
theorem c4_empty_compile_floor_witness :
    UniformBuffer.init.compile (some validDev) =
      .ok ({ UniformBuffer.init with
             uniformBuffer := some { size := 16 },
             compiled := true },
        [.createBuffer 16 .uniformCopyDst]) :=
  c4_empty_compile_floor UniformBuffer.init (some validDev) rfl rfl rfl


/-! ## Claim C6 -/

/-- C6: `compile` is idempotent with respect to GPU allocation: on each
buffer variant, compiling an uncompiled buffer with a valid device performs
exactly one `createBuffer` call, and a second `compile` — whatever device it
is given — returns the state unchanged with an empty GPU trace. -/
theorem c6_compile_idempotent (bufU : UniformBuffer) (bufS : StorageBuffer)
    (devA devB : Option Device)
    (hU : bufU.compiled = false) (hS : bufS.compiled = false)
    (hdev : validateDevice devA = .ok ()) :
    (∃ bU tU, bufU.compile devA = .ok (bU, tU) ∧ countCreates tU = 1 ∧
      bU.compile devB = .ok (bU, [])) ∧
    (∃ bS tS, bufS.compile devA = .ok (bS, tS) ∧ countCreates tS = 1 ∧
      bS.compile devB = .ok (bS, [])) := by
  constructor
  · refine ⟨_, _, UniformBuffer.uniform_compile_uncompiled_eq bufU devA hU hdev, ?_, ?_⟩
    · by_cases h : bufU.flatByteLength > 0 <;> simp [h, countCreates]
    · simp [UniformBuffer.compile]
  · refine ⟨_, _, StorageBuffer.storage_compile_uncompiled_eq bufS devA hS hdev, ?_, ?_⟩
    · by_cases h : bufS.flatByteLength > 0 <;> simp [h, countCreates]
    · simp [StorageBuffer.compile]

/-- Witness for C6 at fresh buffers and a valid device. -/
theorem c6_compile_idempotent_witness :
    (∃ bU tU, UniformBuffer.init.compile (some validDev) = .ok (bU, tU) ∧
      countCreates tU = 1 ∧ bU.compile none = .ok (bU, [])) ∧
    (∃ bS tS,
      ({ storage := [], storageLayout := [], elementSize := 0,
         growthFactor := 3 / 2, minBufferSize := 256, storageBuffer := none,
         compiled := false } : StorageBuffer).compile (some validDev) = .ok (bS, tS) ∧
      countCreates tS = 1 ∧ bS.compile none = .ok (bS, [])) :=
  c6_compile_idempotent UniformBuffer.init
    { storage := [], storageLayout := [], elementSize := 0,
      growthFactor := 3 / 2, minBufferSize := 256, storageBuffer := none,
      compiled := false }
    (some validDev) none rfl rfl rfl


/-! ## Claim C7 -/

/-- C7: on an uncompiled buffer every accessor and update call fails with
the not-compiled error, whatever the stored contents and whatever the
device argument. -/
theorem c7_not_compiled_errors (bufU : UniformBuffer) (bufS : StorageBuffer)
    (dev : Option Device)
    (hU : bufU.compiled = false) (hS : bufS.compiled = false) :
    bufU.getUniformBuffer =
      .error (.jsError "Uniform uffer must be compiled before accessing it!") ∧
    bufU.updateUniformBuffer dev =
      .error (.jsError "Uniform buffer must be compiled before updating!") ∧
    bufS.getStorageBuffer =
      .error (.jsError "Storage buffer must be compiled before accessing it!") ∧
    bufS.update dev =
      .error (.jsError "Storage buffer must be compiled before updating!") := by
  refine ⟨?_, ?_, ?_, ?_⟩
  · simp [UniformBuffer.getUniformBuffer, hU]
  · simp [UniformBuffer.updateUniformBuffer, hU]
  · simp [StorageBuffer.getStorageBuffer, hS]
  · simp [StorageBuffer.update, hS]

/-- Witness for C7: a fresh uniform buffer and a fresh storage buffer, with
a missing device argument. -/
theorem c7_not_compiled_errors_witness :
    UniformBuffer.init.getUniformBuffer =
      .error (.jsError "Uniform uffer must be compiled before accessing it!") ∧
    UniformBuffer.init.updateUniformBuffer none =
      .error (.jsError "Uniform buffer must be compiled before updating!") ∧
    ({ storage := [], storageLayout := [], elementSize := 0,
       growthFactor := 3 / 2, minBufferSize := 256, storageBuffer := none,
       compiled := false } : StorageBuffer).getStorageBuffer =
      .error (.jsError "Storage buffer must be compiled before accessing it!") ∧
    ({ storage := [], storageLayout := [], elementSize := 0,
       growthFactor := 3 / 2, minBufferSize := 256, storageBuffer := none,
       compiled := false } : StorageBuffer).update none =
      .error (.jsError "Storage buffer must be compiled before updating!") :=
  c7_not_compiled_errors UniformBuffer.init
    { storage := [], storageLayout := [], elementSize := 0,
      growthFactor := 3 / 2, minBufferSize := 256, storageBuffer := none,
      compiled := false } none rfl rfl


/-! ## Claim C5 -/

/-- C5 counterexample: the compiled states `c5BufU` / `c5BufS` are reached
by compiling fresh buffers with a valid device; calling `compile` on them
again with a missing device succeeds silently — the early `#compiled`
return precedes `Engine.validateDevice`, so no error is raised even though
the device argument fails the structural check. -/
theorem c5_device_check_counterexample :
    UniformBuffer.init.compile (some validDev) =
      .ok (c5BufU, [.createBuffer 16 .uniformCopyDst]) ∧
    StorageBuffer.construct [] 5 = .ok c5BufS0 ∧
    c5BufS0.compile (some validDev) =
      .ok (c5BufS, [.createBuffer 20 .storageCopyDst]) ∧
    validateDevice none =
      .error (.typeError "WebGPU device is required but was not provided.") ∧
    c5BufU.compile none = .ok (c5BufU, []) ∧
    c5BufS.compile none = .ok (c5BufS, []) :=
  ⟨rfl, rfl, rfl, rfl, rfl, rfl⟩

/-- C5 amended: the structural device-validity check runs on every `update`
call of a compiled buffer and on every `compile` call of a not-yet-compiled
buffer, raising the validation error before any buffer mutation; a
`compile` call on an already-compiled buffer, however, returns immediately
— unchanged state, no GPU calls — without checking the device. -/
theorem c5_device_check_amended (bufU : UniformBuffer) (bufS : StorageBuffer)
    (dev : Option Device) (e : JSError)
    (hdev : validateDevice dev = .error e) :
    (bufU.compiled = false → bufU.compile dev = .error e) ∧
    (bufU.compiled = true → bufU.updateUniformBuffer dev = .error e) ∧
    (bufU.compiled = true → bufU.compile dev = .ok (bufU, [])) ∧
    (bufS.compiled = false → bufS.compile dev = .error e) ∧
    (bufS.compiled = true → bufS.update dev = .error e) ∧
    (bufS.compiled = true → bufS.compile dev = .ok (bufS, [])) := by
  refine ⟨?_, ?_, ?_, ?_, ?_, ?_⟩ <;> intro h
  · simp [UniformBuffer.compile, h, hdev]
  · simp [UniformBuffer.updateUniformBuffer, h, hdev]
  · simp [UniformBuffer.compile, h]
  · simp [StorageBuffer.compile, h, hdev]
  · simp [StorageBuffer.update, h, hdev]
  · simp [StorageBuffer.compile, h]

/-- Witness for C5 amended at concrete states: a fresh uniform buffer, the
compiled `c5BufU` / `c5BufS`, and a missing device. -/
theorem c5_device_check_amended_witness :
    UniformBuffer.init.compile none =
      .error (.typeError "WebGPU device is required but was not provided.") ∧
    c5BufU.updateUniformBuffer none =
      .error (.typeError "WebGPU device is required but was not provided.") ∧
    c5BufU.compile none = .ok (c5BufU, []) ∧
    c5BufS.update none =
      .error (.typeError "WebGPU device is required but was not provided.") ∧
    c5BufS.compile none = .ok (c5BufS, []) := by
  have h1 := c5_device_check_amended UniformBuffer.init c5BufS none
    (.typeError "WebGPU device is required but was not provided.") rfl
  have h2 := c5_device_check_amended c5BufU c5BufS none
    (.typeError "WebGPU device is required but was not provided.") rfl
  exact ⟨h1.1 rfl, h2.2.1 rfl, h2.2.2.1 rfl, h2.2.2.2.2.1 rfl, h2.2.2.2.2.2 rfl⟩


/-! ## Claim C8 -/

/-- C8: `destroy` is idempotent (with no handle it is a non-throwing no-op
— in the model `destroy` is a total function, as the source cannot throw),
always leaves `isCompiled` false, leaves the named value store untouched
(every stored entry is still retrievable via get), and the destroyed buffer
can be compiled again from its existing values — for both variants. -/
theorem c8_destroy_idempotent (bufU : UniformBuffer) (bufS : StorageBuffer)
    (dev : Option Device) (hdev : validateDevice dev = .ok ()) :
    (bufU.destroy.1.isCompiled = false ∧
     bufU.destroy.1.uniforms = bufU.uniforms ∧
     bufU.destroy.1.uniformLayout = bufU.uniformLayout ∧
     (∀ name, bufU.destroy.1.getUniform name = bufU.getUniform name) ∧
     (bufU.uniformBuffer = none →
        bufU.destroy = ({ bufU with compiled := false }, [])) ∧
     bufU.destroy.1.destroy = (bufU.destroy.1, []) ∧
     (∃ b t, bufU.destroy.1.compile dev = .ok (b, t) ∧ b.compiled = true ∧
        b.uniforms = bufU.uniforms)) ∧
    (bufS.destroy.1.isCompiled = false ∧
     bufS.destroy.1.storage = bufS.storage ∧
     bufS.destroy.1.storageLayout = bufS.storageLayout ∧
     (∀ name, bufS.destroy.1.getStorageEntry name = bufS.getStorageEntry name) ∧
     (bufS.storageBuffer = none →
        bufS.destroy = ({ bufS with compiled := false }, [])) ∧
     bufS.destroy.1.destroy = (bufS.destroy.1, []) ∧
     (∃ b t, bufS.destroy.1.compile dev = .ok (b, t) ∧ b.compiled = true ∧
        b.storage = bufS.storage)) := by
  constructor
  · have hd1 : bufU.destroy.1.compiled = false := by
      cases h : bufU.uniformBuffer <;> simp [UniformBuffer.destroy, h]
    refine ⟨?_, ?_, ?_, ?_, ?_, ?_, ?_⟩
    · cases h : bufU.uniformBuffer <;>
        simp [UniformBuffer.destroy, UniformBuffer.isCompiled, h]
    · cases h : bufU.uniformBuffer <;> simp [UniformBuffer.destroy, h]
    · cases h : bufU.uniformBuffer <;> simp [UniformBuffer.destroy, h]
    · intro name
      cases h : bufU.uniformBuffer <;>
        simp [UniformBuffer.destroy, UniformBuffer.getUniform, h]
    · intro h
      simp [UniformBuffer.destroy, h]
    · cases h : bufU.uniformBuffer <;> simp [UniformBuffer.destroy, h]
    · refine ⟨_, _, UniformBuffer.uniform_compile_uncompiled_eq _ dev hd1 hdev, rfl, ?_⟩
      cases h : bufU.uniformBuffer <;> simp [UniformBuffer.destroy, h]
  · have hd1 : bufS.destroy.1.compiled = false := by
      cases h : bufS.storageBuffer <;> simp [StorageBuffer.destroy, h]
    refine ⟨?_, ?_, ?_, ?_, ?_, ?_, ?_⟩
    · cases h : bufS.storageBuffer <;>
        simp [StorageBuffer.destroy, StorageBuffer.isCompiled, h]
    · cases h : bufS.storageBuffer <;> simp [StorageBuffer.destroy, h]
    · cases h : bufS.storageBuffer <;> simp [StorageBuffer.destroy, h]
    · intro name
      cases h : bufS.storageBuffer <;>
        simp [StorageBuffer.destroy, StorageBuffer.getStorageEntry, h]
    · intro h
      simp [StorageBuffer.destroy, h]
    · cases h : bufS.storageBuffer <;> simp [StorageBuffer.destroy, h]
    · refine ⟨_, _, StorageBuffer.storage_compile_uncompiled_eq _ dev hd1 hdev, rfl, ?_⟩
      cases h : bufS.storageBuffer <;> simp [StorageBuffer.destroy, h]

/-- Witness for C8 at concrete compiled buffers and a valid device. -/
theorem c8_destroy_idempotent_witness :
    c8BufU.destroy.1.isCompiled = false ∧
    c8BufU.destroy.1.getUniform "a" = some (.num 1) ∧
    c8BufS.destroy.1.isCompiled = false ∧
    c8BufS.destroy.1.getStorageEntry "e0" = some [("a", .num 1)] := by
  have h := c8_destroy_idempotent c8BufU c8BufS (some validDev) rfl
  refine ⟨h.1.1, ?_, h.2.1, ?_⟩
  · rw [h.1.2.2.2.1 "a"]; rfl
  · rw [h.2.2.2.2.1 "e0"]; rfl


/-! ## Claim C10 -/

/-- The element loop accepts any list whose members avoid the four rejected
shapes (`null`, `undefined`, `NaN`, `Infinity`) — in particular it never
looks at whether an element is a number at all. -/
theorem validateArrayElements_ok (fail1 fail2 : String) (xs : List JSVal)
    (hxs : ∀ x ∈ xs, x ≠ .null ∧ x ≠ .undef ∧ x ≠ .nan ∧ x ≠ .infinite) :
    validateArrayElements fail1 fail2 xs = .ok () := by
  induction xs with
  | nil => rfl
  | cons x rest ih =>
    have hx := hxs x (List.mem_cons_self x rest)
    have hstep : validateArrayElement fail1 fail2 x = .ok () := by
      cases x <;> simp_all [validateArrayElement]
    simp [validateArrayElements, hstep,
      ih (fun y hy => hxs y (List.mem_cons_of_mem x hy))]

/-- C10: value validation rejects only array elements that are
`null`/`undefined` or non-finite numbers; elements that are not numbers at
all pass, so a fully non-numeric array value is accepted by both validators
and is stored without error by `setUniform` (given a registered type). -/
theorem c10_non_numeric_array_accepted (xs : List JSVal)
    (hxs : ∀ x ∈ xs, x ≠ .null ∧ x ≠ .undef ∧ x ≠ .nan ∧ x ≠ .infinite) :
    validateBufferValue (.arr xs) = .ok () ∧
    validateUniformValue (.arr xs) = .ok () ∧
    (∀ (buf : UniformBuffer) (name type : String),
      (jsTrim name).length ≠ 0 → validateBufferValueType type = .ok () →
      buf.setUniform name (.arr xs) type =
        .ok { buf with
              uniforms := mapSet buf.uniforms name (.arr xs),
              uniformLayout := mapSet buf.uniformLayout name type }) := by
  have hv : validateUniformValue (.arr xs) = .ok () := by
    simp [validateUniformValue, validateArrayElements_ok _ _ xs hxs]
  refine ⟨?_, hv, ?_⟩
  · simp [validateBufferValue, validateArrayElements_ok _ _ xs hxs]
  · intro buf name type hn ht
    exact UniformBuffer.setUniform_eq_ok buf name (.arr xs) type hn hv ht

/-- Witness for C10: the all-string array `['a','b','c']` declared as
`vec3<f32>` passes validation and is stored by a set call. -/
theorem c10_non_numeric_array_accepted_witness :
    validateBufferValue (.arr [.str "a", .str "b", .str "c"]) = .ok () ∧
    UniformBuffer.init.setUniform "x" (.arr [.str "a", .str "b", .str "c"])
      "vec3<f32>" =
      .ok { uniforms := [("x", .arr [.str "a", .str "b", .str "c"])],
            uniformLayout := [("x", "vec3<f32>")],
            uniformBuffer := none, compiled := false } := by
  have hxs : ∀ x ∈ [JSVal.str "a", JSVal.str "b", JSVal.str "c"],
      x ≠ JSVal.null ∧ x ≠ JSVal.undef ∧ x ≠ JSVal.nan ∧ x ≠ JSVal.infinite := by
    intro x hx
    have hx3 : x = JSVal.str "a" ∨ x = JSVal.str "b" ∨ x = JSVal.str "c" := by
      simpa using hx
    rcases hx3 with h | h | h <;> subst h <;>
      exact ⟨nofun, nofun, nofun, nofun⟩
  have h := c10_non_numeric_array_accepted
    [.str "a", .str "b", .str "c"] hxs
  refine ⟨h.1, ?_⟩
  rw [h.2.2 UniformBuffer.init "x" "vec3<f32>" (by decide) rfl]
  rfl


/-! ## Claim C9 -/

/-- C9: building an interleaved vertex buffer from 4 vertices with the
component order `[position, uv]` gives stride 5 floats, byte offsets
`{position: 0, uv: 12}` and a flat buffer of exactly 4 × 5 = 20 floats, each
vertex's position at float index `vertexIndex * stride` and its uv at
`vertexIndex * stride + 3` (visible in the explicit interleaved buffer);
and any order containing a duplicate component fails with the
duplicate-component error before any buffer is built. -/
theorem c9_interleaved_vertex_buffer (v0 v1 v2 v3 : Vec3)
    (t0 t1 t2 t3 : UvCoord) (fs : List Face) (ns fns : List Vec3)
    (cs : List ColorVal) :
    (Geometry.mk [v0, v1, v2, v3] fs [t0, t1, t2, t3] ns fns cs).createBuffer
        [.vertex, .uv] =
      .ok { buffer := [v0.x, v0.y, v0.z, t0.u, t0.v,
                       v1.x, v1.y, v1.z, t1.u, t1.v,
                       v2.x, v2.y, v2.z, t2.u, t2.v,
                       v3.x, v3.y, v3.z, t3.u, t3.v],
            layout := [.vertex, .uv], stride := 5,
            offsets := [(.vertex, 0), (.uv, 12)], vertexCount := 4 } ∧
    (∀ layout : List Component, ¬layout.Nodup → ∀ g : Geometry,
      g.createBuffer layout =
        .error (.jsError "Layout contains duplicate components")) := by
  constructor
  · simp [Geometry.createBuffer, validateBufferLayout,
      Geometry.prepareGeometryData, Geometry.writeGeometryData,
      writeGeometryBuffer, buildComponentInfo, calculateStride,
      calculateByteOffsets, mapSet, getComponentSize, componentFloats,
      writeFloats, List.range_succ, List.set, List.dedup]
  · intro layout hnd g
    have h0 : layout.length ≠ 0 := by
      intro h
      exact hnd (by simp [List.length_eq_zero.mp h])
    have hd : layout.dedup.length ≠ layout.length := by
      intro h
      exact hnd ((layout.dedup_sublist.eq_of_length h) ▸ layout.nodup_dedup)
    simp [Geometry.createBuffer, validateBufferLayout, h0, hd]

/-- Witness for C9: a concrete unit-square geometry; the duplicated order
`[position, uv, position]` is rejected. -/
theorem c9_interleaved_vertex_buffer_witness :
    (Geometry.mk [⟨0, 0, 0⟩, ⟨1, 0, 0⟩, ⟨1, 1, 0⟩, ⟨0, 1, 0⟩] []
        [⟨0, 0⟩, ⟨1, 0⟩, ⟨1, 1⟩, ⟨0, 1⟩] [] [] []).createBuffer
        [.vertex, .uv] =
      .ok { buffer := [0, 0, 0, 0, 0,
                       1, 0, 0, 1, 0,
                       1, 1, 0, 1, 1,
                       0, 1, 0, 0, 1],
            layout := [.vertex, .uv], stride := 5,
            offsets := [(.vertex, 0), (.uv, 12)], vertexCount := 4 } ∧
    (Geometry.mk [⟨0, 0, 0⟩, ⟨1, 0, 0⟩, ⟨1, 1, 0⟩, ⟨0, 1, 0⟩] []
        [⟨0, 0⟩, ⟨1, 0⟩, ⟨1, 1⟩, ⟨0, 1⟩] [] [] []).createBuffer
        [.vertex, .uv, .vertex] =
      .error (.jsError "Layout contains duplicate components") := by
  have h := c9_interleaved_vertex_buffer ⟨0, 0, 0⟩ ⟨1, 0, 0⟩ ⟨1, 1, 0⟩
    ⟨0, 1, 0⟩ ⟨0, 0⟩ ⟨1, 0⟩ ⟨1, 1⟩ ⟨0, 1⟩ [] [] [] []
  exact ⟨h.1, h.2 [.vertex, .uv, .vertex] (by decide) _⟩


/-! ## Claim C3 -/

/-- `StorageBuffer.update` on a compiled buffer with a live handle and a
valid device, spelt out: grow-and-rewrite when the required size exceeds
the capacity, otherwise an in-place write at offset 0. -/
theorem StorageBuffer.update_spec (buf : StorageBuffer) (dev : Option Device)
    (h₀ : GPUBuffer) (hc : buf.compiled = true)
    (hb : buf.storageBuffer = some h₀)
    (hdev : validateDevice dev = .ok ()) :
    buf.update dev =
      if h₀.size < buf.requiredSize then
        .ok ({ buf with storageBuffer := some { size := buf.grownSize } },
          [GpuCall.destroyBuffer,
            GpuCall.createBuffer buf.grownSize .storageCopyDst] ++
            (if 0 < buf.flatByteLength then
              [GpuCall.writeBuffer 0 buf.flatByteLength] else []) ++
            (if 0 < buf.flatByteLength then
              [GpuCall.writeBuffer 0 buf.flatByteLength] else []))
      else
        .ok (buf, if 0 < buf.flatByteLength then
          [GpuCall.writeBuffer 0 buf.flatByteLength] else []) := by
  simp only [StorageBuffer.update, hc, hb, hdev, StorageBuffer.requiredSize,
    StorageBuffer.grownSize, StorageBuffer.createStorageBuffer, Bool.not_true,
    Bool.false_eq_true, if_false]
  split <;> simp_all

/-- The grown size is at least the required size (growth factor ≥ 1). -/
theorem StorageBuffer.requiredSize_le_grownSize (buf : StorageBuffer)
    (hg : 1 ≤ buf.growthFactor) : buf.requiredSize ≤ buf.grownSize := by
  have h1 : ((buf.requiredSize : ℚ)) ≤ (buf.requiredSize : ℚ) * buf.growthFactor :=
    le_mul_of_one_le_right (Nat.cast_nonneg _) hg
  have h2 : (buf.requiredSize : ℤ) ≤ jsCeil ((buf.requiredSize : ℚ) * buf.growthFactor) := by
    calc (buf.requiredSize : ℤ) = ⌈(buf.requiredSize : ℚ)⌉ := (Int.ceil_natCast _).symm
    _ ≤ ⌈(buf.requiredSize : ℚ) * buf.growthFactor⌉ := Int.ceil_le_ceil h1
  have h3 := Int.toNat_le_toNat h2
  simpa [StorageBuffer.grownSize] using h3

/-- The grown size dominates `growthFactor * requiredSize` (the ceiling
rounds up). -/
theorem StorageBuffer.mul_requiredSize_le_grownSize (buf : StorageBuffer)
    (hg : 0 ≤ buf.growthFactor) :
    buf.growthFactor * buf.requiredSize ≤ (buf.grownSize : ℚ) := by
  have hnn : (0 : ℚ) ≤ (buf.requiredSize : ℚ) * buf.growthFactor :=
    mul_nonneg (Nat.cast_nonneg _) hg
  have h1 : ((buf.requiredSize : ℚ)) * buf.growthFactor ≤
      ((⌈(buf.requiredSize : ℚ) * buf.growthFactor⌉ : ℤ) : ℚ) := Int.le_ceil _
  have h2 : (0 : ℤ) ≤ ⌈(buf.requiredSize : ℚ) * buf.growthFactor⌉ :=
    Int.ceil_nonneg hnn
  have h3 : ((buf.grownSize : ℕ) : ℚ) =
      ((⌈(buf.requiredSize : ℚ) * buf.growthFactor⌉ : ℤ) : ℚ) := by
    rw [StorageBuffer.grownSize, jsCeil]
    exact_mod_cast congrArg (fun z : ℤ => (z : ℚ)) (Int.toNat_of_nonneg h2)
  rw [mul_comm, h3]
  exact h1

/-- One `update` on a compiled, live-handle buffer succeeds, keeps the
compiled flag, the growth factor and the storage, and never shrinks the GPU
capacity. -/
theorem StorageBuffer.update_mono (buf : StorageBuffer) (dev : Option Device)
    (h₀ : GPUBuffer) (hc : buf.compiled = true)
    (hb : buf.storageBuffer = some h₀)
    (hdev : validateDevice dev = .ok ()) (hg : 1 ≤ buf.growthFactor) :
    ∃ buf' t h₁, buf.update dev = .ok (buf', t) ∧
      buf'.storageBuffer = some h₁ ∧ h₀.size ≤ h₁.size ∧
      buf'.compiled = true ∧ buf'.growthFactor = buf.growthFactor ∧
      buf'.capacity = h₁.size := by
  rw [StorageBuffer.update_spec buf dev h₀ hc hb hdev]
  by_cases hlt : h₀.size < buf.requiredSize
  · refine ⟨{ buf with storageBuffer := some { size := buf.grownSize } },
      [GpuCall.destroyBuffer,
        GpuCall.createBuffer buf.grownSize .storageCopyDst] ++
        (if 0 < buf.flatByteLength then
          [GpuCall.writeBuffer 0 buf.flatByteLength] else []) ++
        (if 0 < buf.flatByteLength then
          [GpuCall.writeBuffer 0 buf.flatByteLength] else []),
      { size := buf.grownSize }, by rw [if_pos hlt], rfl, ?_, hc, rfl, rfl⟩
    exact le_trans (le_of_lt hlt) (buf.requiredSize_le_grownSize hg)
  · refine ⟨buf, if 0 < buf.flatByteLength then
      [GpuCall.writeBuffer 0 buf.flatByteLength] else [], h₀,
      by rw [if_neg hlt], hb, le_refl _, hc, rfl, ?_⟩
    simp [StorageBuffer.capacity, hb]

/-- Updating with replaced storage contents: the relevant state facts are
untouched by replacing the `storage` field. -/
theorem StorageBuffer.update_mono_replaced (buf : StorageBuffer)
    (dev : Option Device) (h₀ : GPUBuffer)
    (s : List (String × List (String × JSVal)))
    (hc : buf.compiled = true) (hb : buf.storageBuffer = some h₀)
    (hdev : validateDevice dev = .ok ()) (hg : 1 ≤ buf.growthFactor) :
    ∃ buf' t h₁,
      StorageBuffer.update { buf with storage := s } dev = .ok (buf', t) ∧
      buf'.storageBuffer = some h₁ ∧ h₀.size ≤ h₁.size ∧
      buf'.compiled = true ∧ buf'.growthFactor = buf.growthFactor ∧
      buf'.capacity = h₁.size :=
  StorageBuffer.update_mono { buf with storage := s } dev h₀ hc hb hdev hg

/-- Along any sequence of `update` calls — with the storage contents
replaced arbitrarily before each call — every call succeeds and the
observed GPU capacities form a non-decreasing chain from the initial
capacity. -/
theorem runUpdates_chain (dev : Option Device)
    (hdev : validateDevice dev = .ok ()) :
    ∀ (ss : List (List (String × List (String × JSVal))))
      (buf : StorageBuffer) (h₀ : GPUBuffer),
      buf.compiled = true → buf.storageBuffer = some h₀ →
      1 ≤ buf.growthFactor →
      ∃ bufF caps, runUpdates dev buf ss = .ok (bufF, caps) ∧
        List.Chain' (· ≤ ·) (h₀.size :: caps) := by
  intro ss
  induction ss with
  | nil =>
    intro buf h₀ _ _ _
    exact ⟨buf, [], rfl, List.chain'_singleton _⟩
  | cons s rest ih =>
    intro buf h₀ hc hb hg
    obtain ⟨buf', t, h₁, hu, hb', hle, hc', hgf, hcap⟩ :=
      StorageBuffer.update_mono_replaced buf dev h₀ s hc hb hdev hg
    obtain ⟨bufF, caps, hrun, hchain⟩ := ih buf' h₁ hc' hb' (hgf ▸ hg)
    refine ⟨bufF, h₁.size :: caps, ?_, ?_⟩
    · simp [runUpdates, hu, hrun, hcap]
    · exact List.chain'_cons.mpr ⟨hle, hchain⟩

/-- C3: an `update` whose required size (payload bytes floored by the
minimum size) exceeds the capacity destroys the old handle and recreates
one of exactly `ceil(requiredSize * growthFactor)` bytes — hence capacity
≥ `growthFactor * requiredSize` and no shrink; an `update` that fits writes
in place at offset 0 with no reallocation; and over any sequence of update
calls the capacity sequence is non-decreasing. -/
theorem c3_storage_growth (buf : StorageBuffer) (dev : Option Device)
    (h₀ : GPUBuffer) (hc : buf.compiled = true)
    (hb : buf.storageBuffer = some h₀)
    (hdev : validateDevice dev = .ok ()) (hg : 1 ≤ buf.growthFactor) :
    (h₀.size < buf.requiredSize →
      buf.update dev =
        .ok ({ buf with storageBuffer := some { size := buf.grownSize } },
          [GpuCall.destroyBuffer,
            GpuCall.createBuffer buf.grownSize .storageCopyDst] ++
            (if 0 < buf.flatByteLength then
              [GpuCall.writeBuffer 0 buf.flatByteLength] else []) ++
            (if 0 < buf.flatByteLength then
              [GpuCall.writeBuffer 0 buf.flatByteLength] else [])) ∧
      buf.growthFactor * buf.requiredSize ≤ (buf.grownSize : ℚ) ∧
      h₀.size ≤ buf.grownSize) ∧
    (buf.requiredSize ≤ h₀.size →
      buf.update dev =
        .ok (buf, if 0 < buf.flatByteLength then
          [GpuCall.writeBuffer 0 buf.flatByteLength] else [])) ∧
    (∀ ss, ∃ bufF caps, runUpdates dev buf ss = .ok (bufF, caps) ∧
      List.Chain' (· ≤ ·) (h₀.size :: caps)) := by
  refine ⟨?_, ?_, ?_⟩
  · intro hlt
    refine ⟨?_, buf.mul_requiredSize_le_grownSize (le_trans zero_le_one hg), ?_⟩
    · rw [StorageBuffer.update_spec buf dev h₀ hc hb hdev, if_pos hlt]
    · exact le_trans (le_of_lt hlt) (buf.requiredSize_le_grownSize hg)
  · intro hge
    rw [StorageBuffer.update_spec buf dev h₀ hc hb hdev,
      if_neg (not_lt.mpr hge)]
  · intro ss
    exact runUpdates_chain dev hdev ss buf h₀ hc hb hg

/-- Witness for C3 at `c3Buf`: the 12-byte payload exceeds the 8-byte
capacity, so update destroys and recreates an 18-byte buffer
(`ceil(12 * 1.5)`), and a two-step update sequence keeps capacities
non-decreasing. -/
theorem c3_storage_growth_witness :
    c3Buf.update (some validDev) =
      .ok ({ c3Buf with storageBuffer := some { size := 18 } },
        [GpuCall.destroyBuffer, GpuCall.createBuffer 18 .storageCopyDst,
          GpuCall.writeBuffer 0 12, GpuCall.writeBuffer 0 12]) ∧
    (3 / 2 : ℚ) * 12 ≤ (18 : ℚ) ∧
    (∃ bufF caps,
      runUpdates (some validDev) c3Buf [c3Buf.storage, []] = .ok (bufF, caps) ∧
      List.Chain' (· ≤ ·) (8 :: caps)) := by
  have h := c3_storage_growth c3Buf (some validDev) { size := 8 } rfl rfl rfl
    (by norm_num [c3Buf])
  have hreq : c3Buf.requiredSize = 12 := rfl
  have hflat : c3Buf.flatByteLength = 12 := rfl
  have hgrown : c3Buf.grownSize = 18 := by
    rw [StorageBuffer.grownSize, hreq, show c3Buf.growthFactor = 3 / 2 from rfl]
    norm_num [jsCeil]
    decide
  have h1 := h.1 (by rw [hreq]; norm_num)
  refine ⟨?_, ?_, h.2.2 [c3Buf.storage, []]⟩
  · rw [h1.1]
    simp [hgrown, hflat]
  · have h2 := h1.2.1
    rw [show c3Buf.growthFactor = 3 / 2 from rfl, hreq, hgrown] at h2
    exact_mod_cast h2

end Illuvision
